import Mathlib

/-!
Shallow embedding of `src/thelittlehackers/utils/photo_utils.py`.

The repository's live code consists of two functions:

* `__extract_exif_tags(file)` — dispatches on the type of `file`
  (`pathlib.Path` vs `io.BytesIO`), resets a buffer's read cursor with
  `file.seek(0)`, opens a path with a `with open(file, 'rb')` block, and
  delegates the actual EXIF decoding to the external `exifread` library;
* `get_photo_capture_time(file, strict=True)` — looks up the
  `"EXIF DateTimeOriginal"` and `"EXIF OffsetTimeOriginal"` tags in the
  mapping returned by the extractor, parses the date string with
  `datetime.strptime(s, "%Y:%m:%d %H:%M:%S")`, optionally parses the UTC
  offset string, and returns a naive or timezone-aware datetime.

The external EXIF decoder is modelled as an injected function from the raw
bytes to a tag mapping; tag values are modelled by their string forms (the
only computation the Python code applies to them is `str(...)`).  The
truthiness tests `if exif_datetime:` / `if exif_offset:` reduce to
presence tests on the mapping: `dict.get` returns `None` (falsy) for an
absent key, while a present value is an `exifread` `IfdTag` object, which
defines neither `__bool__` nor `__len__` and is therefore always truthy,
even when its string form is empty.  The embedding is restricted to ASCII
character data: Python's `re` module and `int()` additionally accept
non-ASCII Unicode digits and whitespace, which no claim exercises.

The semantics of the Python standard-library routines reached by this code
(`datetime.strptime` with the fixed format above, `str.strip`,
`str.split(":")`, `int(...)`, `datetime.timedelta`, `datetime.timezone`)
are translated here from CPython's `_strptime.py` regular expressions and
the documented behaviour of those builtins, since the repository's
behaviour on each input is determined by them.
-/

/-- Decimal value of an ASCII digit character (`ord(c) - ord('0')`). -/
def dv (c : Char) : Nat := c.toNat - 48

/-- ASCII decimal digit, i.e. what `\d` matches on ASCII data
(CPython's `_strptime` compiles its patterns without `re.ASCII`, so the
real code also accepts non-ASCII Unicode digits; those are outside the
modelled character set). -/
def isDig (c : Char) : Bool := '0' ≤ c && c ≤ '9'

/-- ASCII whitespace as recognised by Python's `str.strip`, `int()` and the
regex class `\s` (again restricted to ASCII). -/
def isPyWs (c : Char) : Bool :=
  c == ' ' || c == '\t' || c == '\n' || c == '\r' || c == '\x0b' || c == '\x0c'

/-- `str.strip()` on a character list: drop leading and trailing
whitespace. -/
def pyStripL (l : List Char) : List Char :=
  ((l.dropWhile isPyWs).reverse.dropWhile isPyWs).reverse

/-- `s.split(":")` on a character list.  Mirrors Python's separator-based
`str.split`: splitting the empty string yields `[""]`, and consecutive
separators yield empty fields. -/
def splitColon : List Char → List (List Char)
  | [] => [[]]
  | c :: rest =>
    if c = ':' then [] :: splitColon rest
    else
      match splitColon rest with
      | g :: gs => (c :: g) :: gs
      | [] => [[c]]

/-- Digit tail of a Python integer literal: after an initial digit,
`int(...)` accepts further digits with single underscores allowed only
between digits. -/
def digitsTailU : List Char → Nat → Option Nat
  | [], acc => some acc
  | c :: rest, acc =>
    if c = '_' then
      match rest with
      | c2 :: rest2 => if isDig c2 then digitsTailU rest2 (acc * 10 + dv c2) else none
      | [] => none
    else if isDig c then digitsTailU rest (acc * 10 + dv c) else none

/-- A non-empty digit sequence (with optional inner underscores), as
accepted by `int(...)` after the optional sign. -/
def digitsU : List Char → Option Nat
  | [] => none
  | c :: rest => if isDig c then digitsTailU rest (dv c) else none

/-- Python's `int(s)` on ASCII data: strip surrounding whitespace, then an
optional `+`/`-` sign followed by a non-empty digit sequence.  `none`
models the `ValueError` that `int` raises otherwise. -/
def pythonIntL (l : List Char) : Option Int :=
  match pyStripL l with
  | [] => none
  | c :: rest =>
    if c = '+' then (digitsU rest).map (fun n => (n : Int))
    else if c = '-' then (digitsU rest).map (fun n => -(n : Int))
    else (digitsU (c :: rest)).map (fun n => (n : Int))

/-- `%Y` of `_strptime`: exactly four digits (`\d\d\d\d`). -/
def matchYear : List Char → Option (Nat × List Char)
  | a :: b :: c :: e :: rest =>
    if isDig a && isDig b && isDig c && isDig e then
      some (1000 * dv a + 100 * dv b + 10 * dv c + dv e, rest)
    else none
  | _ => none

/-- `%m` of `_strptime`: the ordered alternatives `1[0-2]|0[1-9]|[1-9]`.
The regex engine tries the alternatives left to right; a longer
alternative that matches is committed to, which is faithful here because
the token following `%m` in the format can never match a digit. -/
def matchMonth : List Char → Option (Nat × List Char)
  | a :: b :: rest =>
    if a == '1' && ('0' ≤ b && b ≤ '2') then some (10 + dv b, rest)
    else if a == '0' && ('1' ≤ b && b ≤ '9') then some (dv b, rest)
    else if '1' ≤ a && a ≤ '9' then some (dv a, b :: rest)
    else none
  | [a] => if '1' ≤ a && a ≤ '9' then some (dv a, []) else none
  | [] => none

/-- `%d` of `_strptime`: `3[01]|[12]\d|0[1-9]|[1-9]`. -/
def matchDay : List Char → Option (Nat × List Char)
  | a :: b :: rest =>
    if a == '3' && ('0' ≤ b && b ≤ '1') then some (30 + dv b, rest)
    else if (a == '1' || a == '2') && isDig b then some (10 * dv a + dv b, rest)
    else if a == '0' && ('1' ≤ b && b ≤ '9') then some (dv b, rest)
    else if '1' ≤ a && a ≤ '9' then some (dv a, b :: rest)
    else none
  | [a] => if '1' ≤ a && a ≤ '9' then some (dv a, []) else none
  | [] => none

/-- `%H` of `_strptime`: `2[0-3]|[0-1]\d|\d`. -/
def matchHour : List Char → Option (Nat × List Char)
  | a :: b :: rest =>
    if a == '2' && ('0' ≤ b && b ≤ '3') then some (20 + dv b, rest)
    else if (a == '0' || a == '1') && isDig b then some (10 * dv a + dv b, rest)
    else if isDig a then some (dv a, b :: rest)
    else none
  | [a] => if isDig a then some (dv a, []) else none
  | [] => none

/-- `%M` of `_strptime`: `[0-5]\d|\d`. -/
def matchMinute : List Char → Option (Nat × List Char)
  | a :: b :: rest =>
    if ('0' ≤ a && a ≤ '5') && isDig b then some (10 * dv a + dv b, rest)
    else if isDig a then some (dv a, b :: rest)
    else none
  | [a] => if isDig a then some (dv a, []) else none
  | [] => none

/-- `%S` of `_strptime`: `6[0-1]|[0-5]\d|\d` (the regex admits the leap
seconds 60 and 61; the `datetime` constructor then rejects them). -/
def matchSecond : List Char → Option (Nat × List Char)
  | a :: b :: rest =>
    if a == '6' && ('0' ≤ b && b ≤ '1') then some (60 + dv b, rest)
    else if ('0' ≤ a && a ≤ '5') && isDig b then some (10 * dv a + dv b, rest)
    else if isDig a then some (dv a, b :: rest)
    else none
  | [a] => if isDig a then some (dv a, []) else none
  | [] => none

/-- The literal `:` of the format string. -/
def matchColon : List Char → Option (List Char)
  | ':' :: rest => some rest
  | _ => none

/-- The literal space of the format string: `_strptime` replaces runs of
whitespace in the format by `\s+`, so it matches one or more whitespace
characters, greedily. -/
def matchWs1 : List Char → Option (List Char)
  | [] => none
  | c :: rest => if isPyWs c then some (rest.dropWhile isPyWs) else none

/-- The regex phase of
`datetime.strptime(s, "%Y:%m:%d %H:%M:%S")`: match the whole string
(`_strptime` raises `ValueError` both when the regex fails and when
unconverted data remains) and return the six numeric fields. -/
def strptime_fields (l : List Char) : Option (Nat × Nat × Nat × Nat × Nat × Nat) :=
  (matchYear l).bind fun yr =>
  (matchColon yr.2).bind fun l2 =>
  (matchMonth l2).bind fun mo =>
  (matchColon mo.2).bind fun l4 =>
  (matchDay l4).bind fun da =>
  (matchWs1 da.2).bind fun l6 =>
  (matchHour l6).bind fun hr =>
  (matchColon hr.2).bind fun l8 =>
  (matchMinute l8).bind fun mi =>
  (matchColon mi.2).bind fun l10 =>
  (matchSecond l10).bind fun se =>
  if se.2 = [] then some (yr.1, mo.1, da.1, hr.1, mi.1, se.1) else none

/-- Python's Gregorian leap-year rule (`calendar.isleap`). -/
def pyIsLeap (y : Nat) : Bool := y % 4 == 0 && (y % 100 != 0 || y % 400 == 0)

/-- Number of days in a month, as enforced by the `datetime` constructor. -/
def daysInMonth (y m : Nat) : Nat :=
  if m == 2 then (if pyIsLeap y then 29 else 28)
  else if m == 4 || m == 6 || m == 9 || m == 11 then 30
  else 31

/-- The range checks of the `datetime(...)` constructor
(`MINYEAR = 1`, `MAXYEAR = 9999`, valid month, day, hour, minute, second;
the constructor rejects leap seconds). -/
def datetime_new_ok (y mo da h mi s : Nat) : Bool :=
  decide (1 ≤ y) && decide (y ≤ 9999) &&
  decide (1 ≤ mo) && decide (mo ≤ 12) &&
  decide (1 ≤ da) && decide (da ≤ daysInMonth y mo) &&
  decide (h ≤ 23) && decide (mi ≤ 59) && decide (s ≤ 59)

/-- `datetime.strptime(s, "%Y:%m:%d %H:%M:%S")`: `none` models the
`ValueError` raised either by the regex phase or by the `datetime`
constructor. -/
def strptime_datetime (l : List Char) : Option (Nat × Nat × Nat × Nat × Nat × Nat) :=
  match strptime_fields l with
  | none => none
  | some (y, mo, da, h, mi, s) =>
    if datetime_new_ok y mo da h mi s then some (y, mo, da, h, mi, s) else none

/-- `timedelta` day-range check, expressed over a whole number of minutes.
Python normalises a `timedelta` to `(days, seconds, microseconds)` with
`days = floor(total / 86400)` and raises `OverflowError` unless
`-999999999 <= days <= 999999999`; for a duration of `m` whole minutes
this is equivalent to the bounds below. -/
def timedeltaMinutesOk (m : Int) : Bool :=
  decide (-(999999999 : Int) * 1440 ≤ m) && decide (m ≤ 999999999 * 1440 + 1439)

/-- `s.startswith("+")` on a character list. -/
def startsWithPlus : List Char → Bool
  | [] => false
  | c :: _ => c == '+'

/-- Errors arising inside the offset-handling code: `ValueError` (from
unpacking, `int(...)`, or the `timezone` range check) is caught by the
surrounding `except ValueError`, while `OverflowError` (from `timedelta`)
is not. -/
inductive OffsetErr
  | valueErr
  | overflowErr
deriving Repr, DecidableEq

/-- Lines 129–135 of `photo_utils.py`:

```
offset_str = str(exif_offset).strip()
sign = 1 if offset_str.startswith("+") else -1
hours, minutes = map(int, offset_str[1:].split(":"))
tz_offset = timedelta(hours=hours, minutes=minutes) * sign
capture_time = capture_time.replace(tzinfo=timezone(tz_offset))
```

The result is the fixed UTC offset in minutes.  `timezone(...)` requires
the offset to lie strictly between minus and plus 24 hours. -/
def parse_offset_minutes (l : List Char) : Except OffsetErr Int :=
  let offset_str := pyStripL l
  let sign : Int := if startsWithPlus offset_str then 1 else -1
  match splitColon (offset_str.drop 1) with
  | [hs, ms] =>
    match pythonIntL hs, pythonIntL ms with
    | some hours, some minutes =>
      let tdMinutes : Int := hours * 60 + minutes
      if timedeltaMinutesOk tdMinutes then
        let tzMinutes := tdMinutes * sign
        if timedeltaMinutesOk tzMinutes then
          if decide (-1440 < tzMinutes) && decide (tzMinutes < 1440) then .ok tzMinutes
          else .error .valueErr
        else .error .overflowErr
      else .error .overflowErr
    | _, _ => .error .valueErr
  | _ => .error .valueErr

/-- Python exceptions that can escape the functions under study. -/
inductive PyErr
  | valueError (msg : String)
  | overflowError
  | osError (path : String)
  | decodeError (msg : String)
deriving Repr, DecidableEq

/-- The EXIF tag mapping produced by `exifread.process_file`, with tag
values modelled by their string forms. -/
abbrev ExifTags := List (String × String)

/-- A `datetime` value: six calendar fields plus an optional fixed UTC
offset in minutes (`none` models a naive datetime, `some m` one carrying
`timezone(timedelta(minutes=m))`). -/
structure PyDatetime where
  year : Nat
  month : Nat
  day : Nat
  hour : Nat
  minute : Nat
  second : Nat
  tzOffsetMinutes : Option Int
deriving Repr, DecidableEq

/-- The photo source accepted by `__extract_exif_tags`: a filesystem path
(`pathlib.Path`), an in-memory byte buffer with its current read cursor
(`io.BytesIO`), or a value of any other type, identified by the name of
its type. -/
inductive PhotoSource
  | path (p : String)
  | buffer (content : List Nat) (pos : Nat)
  | other (typeName : String)

/-- `BytesIO` read semantics: the decoder consumes the stream from its
current cursor position. -/
def bufferRead (content : List Nat) (pos : Nat) : List Nat := content.drop pos

/-- A file-handle event, used to record the resource behaviour of the
`with open(file, 'rb') as handle:` block. -/
inductive FileEvent
  | openF (p : String)
  | closeF (p : String)
deriving Repr, DecidableEq

/-- The exact message of the `ValueError` raised for an unsupported source
type (an f-string in the source, with the type's name interpolated). -/
def invalidTypeMsg (tyName : String) : String :=
  "Invalid file type: expected a file-like object (`BytesIO`) or a file " ++
    "path (`Path`), but received " ++ tyName ++ "."

/-- `__extract_exif_tags`, instrumented with the file-handle events it
performs.  `fs` models the filesystem (`none` makes `open` raise), and
`decode` models `exifread.process_file` as a function of the bytes
readable from the stream it is handed; it may fail with any exception.

* a `Path` is opened inside a `with` block, so the handle is closed both
  when the decoder returns and when it raises, before the result or the
  exception leaves the function;
* a `BytesIO` is rewound with `file.seek(0)` and then decoded from the
  cursor;
* any other value raises `ValueError` without touching the filesystem or
  the decoder. -/
def extract_exif_tags_ev (fs : String → Option (List Nat))
    (decode : List Nat → Except PyErr ExifTags) :
    PhotoSource → List FileEvent × Except PyErr ExifTags
  | .path p =>
    match fs p with
    | none => ([], .error (.osError p))
    | some content => ([.openF p, .closeF p], decode content)
  | .buffer content _pos =>
    let posAfterSeek : Nat := 0
    ([], decode (bufferRead content posAfterSeek))
  | .other tyName => ([], .error (.valueError (invalidTypeMsg tyName)))

/-- `__extract_exif_tags` proper: the value/exception part of the
instrumented function. -/
def extract_exif_tags (fs : String → Option (List Nat))
    (decode : List Nat → Except PyErr ExifTags) (file : PhotoSource) :
    Except PyErr ExifTags :=
  (extract_exif_tags_ev fs decode file).2

/-- Lines 121–143 of `photo_utils.py`: the body of
`get_photo_capture_time` after the tag extraction.

```
exif_datetime = exif_tags.get('EXIF DateTimeOriginal')
exif_offset = exif_tags.get('EXIF OffsetTimeOriginal')
if exif_datetime:
    try:
        capture_time = datetime.strptime(str(exif_datetime), "%Y:%m:%d %H:%M:%S")
        if exif_offset:
            ... offset handling ...
    except ValueError:
        raise ValueError("Invalid date format in Exif metadata")
else:
    if strict:
        raise ValueError("The photo does not contain capture date and time information")
    capture_time = None
return capture_time
```

`exif_tags.get(...)` returns `None` (falsy) when the key is absent and an
`exifread` `IfdTag` object when present; `IfdTag` defines neither
`__bool__` nor `__len__`, so a present tag value is always truthy,
whatever its string form.  The truthiness tests `if exif_datetime:` /
`if exif_offset:` therefore reduce to presence tests on the mapping, and
a present tag with an empty string form reaches the parsing code. -/
def capture_time_from_tags (exif_tags : ExifTags) (strict : Bool) :
    Except PyErr (Option PyDatetime) :=
  let exif_datetime := List.lookup "EXIF DateTimeOriginal" exif_tags
  let exif_offset := List.lookup "EXIF OffsetTimeOriginal" exif_tags
  match exif_datetime with
  | none =>
    if strict then
      .error (.valueError "The photo does not contain capture date and time information")
    else .ok none
  | some dtv =>
    match strptime_datetime dtv.data with
    | none => .error (.valueError "Invalid date format in Exif metadata")
    | some (y, mo, da, h, mi, s) =>
      match exif_offset with
      | none => .ok (some (PyDatetime.mk y mo da h mi s none))
      | some ofv =>
        match parse_offset_minutes ofv.data with
        | .ok tzMinutes => .ok (some (PyDatetime.mk y mo da h mi s (some tzMinutes)))
        | .error .valueErr => .error (.valueError "Invalid date format in Exif metadata")
        | .error .overflowErr => .error .overflowError

/-- `get_photo_capture_time(file, strict=True)`, instrumented with the
file-handle events of the extraction step. -/
def get_photo_capture_time_ev (fs : String → Option (List Nat))
    (decode : List Nat → Except PyErr ExifTags) (file : PhotoSource) (strict : Bool) :
    List FileEvent × Except PyErr (Option PyDatetime) :=
  let r := extract_exif_tags_ev fs decode file
  (r.1,
    match r.2 with
    | .error e => .error e
    | .ok exif_tags => capture_time_from_tags exif_tags strict)

/-- `get_photo_capture_time(file, strict=True)` (the default of `strict`
in the source is `True`). -/
def get_photo_capture_time (fs : String → Option (List Nat))
    (decode : List Nat → Except PyErr ExifTags) (file : PhotoSource) (strict : Bool) :
    Except PyErr (Option PyDatetime) :=
  match extract_exif_tags fs decode file with
  | .error e => .error e
  | .ok exif_tags => capture_time_from_tags exif_tags strict

/-- The zero-padded textual layout `YYYY:MM:DD HH:MM:SS` that the spec
calls the "exact layout": nineteen characters, digits in the eight date
positions and six time positions, literal colons and a single literal
space, and the denoted fields forming a valid Gregorian datetime.  The
field values are the ones denoted positionally. -/
def exactLayoutCore : List Char → Bool
  | [y1, y2, y3, y4, c1, m1, m2, c2, a1, a2, sp, h1, h2, c3, n1, n2, c4, s1, s2] =>
    isDig y1 && isDig y2 && isDig y3 && isDig y4 && c1 == ':' &&
    isDig m1 && isDig m2 && c2 == ':' && isDig a1 && isDig a2 && sp == ' ' &&
    isDig h1 && isDig h2 && c3 == ':' && isDig n1 && isDig n2 && c4 == ':' &&
    isDig s1 && isDig s2 &&
    datetime_new_ok (1000 * dv y1 + 100 * dv y2 + 10 * dv y3 + dv y4)
      (10 * dv m1 + dv m2) (10 * dv a1 + dv a2)
      (10 * dv h1 + dv h2) (10 * dv n1 + dv n2) (10 * dv s1 + dv s2)
  | _ => false

/-- The six fields denoted positionally by a string in the exact layout. -/
def exactFieldsCore : List Char → Nat × Nat × Nat × Nat × Nat × Nat
  | [y1, y2, y3, y4, _, m1, m2, _, a1, a2, _, h1, h2, _, n1, n2, _, s1, s2] =>
    (1000 * dv y1 + 100 * dv y2 + 10 * dv y3 + dv y4,
      10 * dv m1 + dv m2, 10 * dv a1 + dv a2,
      10 * dv h1 + dv h2, 10 * dv n1 + dv n2, 10 * dv s1 + dv s2)
  | _ => (0, 0, 0, 0, 0, 0)

/-- `exactLayoutCore` on a string. -/
def exactExifLayout (s : String) : Bool := exactLayoutCore s.data

/-- `exactFieldsCore` on a string. -/
def exactExifFields (s : String) : Nat × Nat × Nat × Nat × Nat × Nat :=
  exactFieldsCore s.data

/-! ### Helper lemmas about characters and the field matchers -/

theorem isDig_cases (c : Char) (h : isDig c = true) :
    c = '0' ∨ c = '1' ∨ c = '2' ∨ c = '3' ∨ c = '4' ∨
    c = '5' ∨ c = '6' ∨ c = '7' ∨ c = '8' ∨ c = '9' := by
  simp only [isDig, Bool.and_eq_true, decide_eq_true_eq] at h
  obtain ⟨h1, h2⟩ := h
  rw [Char.le_def] at h1 h2
  have e : c = Char.ofNat c.toNat := (Char.ofNat_toNat c).symm
  have hb1 : 48 ≤ c.toNat := h1
  have hb2 : c.toNat ≤ 57 := h2
  interval_cases h : c.toNat <;> rw [e] <;> decide

theorem isPyWs_digit (c : Char) (h : isDig c = true) : isPyWs c = false := by
  rcases isDig_cases c h with rfl|rfl|rfl|rfl|rfl|rfl|rfl|rfl|rfl|rfl <;> rfl

theorem isDig_ne_colon (c : Char) (h : isDig c = true) : c ≠ ':' := by
  rcases isDig_cases c h with rfl|rfl|rfl|rfl|rfl|rfl|rfl|rfl|rfl|rfl <;> decide

theorem isDig_ne_plus (c : Char) (h : isDig c = true) : c ≠ '+' := by
  rcases isDig_cases c h with rfl|rfl|rfl|rfl|rfl|rfl|rfl|rfl|rfl|rfl <;> decide

theorem isDig_ne_minus (c : Char) (h : isDig c = true) : c ≠ '-' := by
  rcases isDig_cases c h with rfl|rfl|rfl|rfl|rfl|rfl|rfl|rfl|rfl|rfl <;> decide

theorem isDig_ne_underscore (c : Char) (h : isDig c = true) : c ≠ '_' := by
  rcases isDig_cases c h with rfl|rfl|rfl|rfl|rfl|rfl|rfl|rfl|rfl|rfl <;> decide

theorem matchYear_eq (a b c e : Char) (r : List Char) (ha : isDig a = true)
    (hb : isDig b = true) (hc : isDig c = true) (he : isDig e = true) :
    matchYear (a :: b :: c :: e :: r) =
      some (1000 * dv a + 100 * dv b + 10 * dv c + dv e, r) := by
  simp [matchYear, ha, hb, hc, he]

theorem matchColon_cons (r : List Char) : matchColon (':' :: r) = some r := rfl

theorem matchMonth_eq (m1 m2 : Char) (r : List Char) (h1 : isDig m1 = true)
    (h2 : isDig m2 = true) (hlo : 1 ≤ 10 * dv m1 + dv m2)
    (hhi : 10 * dv m1 + dv m2 ≤ 12) :
    matchMonth (m1 :: m2 :: r) = some (10 * dv m1 + dv m2, r) := by
  rcases isDig_cases m1 h1 with rfl|rfl|rfl|rfl|rfl|rfl|rfl|rfl|rfl|rfl <;>
    rcases isDig_cases m2 h2 with rfl|rfl|rfl|rfl|rfl|rfl|rfl|rfl|rfl|rfl <;>
      first
        | rfl
        | exact absurd hhi (by decide)
        | exact absurd hlo (by decide)

theorem matchDay_eq (a1 a2 : Char) (r : List Char) (h1 : isDig a1 = true)
    (h2 : isDig a2 = true) (hlo : 1 ≤ 10 * dv a1 + dv a2)
    (hhi : 10 * dv a1 + dv a2 ≤ 31) :
    matchDay (a1 :: a2 :: r) = some (10 * dv a1 + dv a2, r) := by
  rcases isDig_cases a1 h1 with rfl|rfl|rfl|rfl|rfl|rfl|rfl|rfl|rfl|rfl <;>
    rcases isDig_cases a2 h2 with rfl|rfl|rfl|rfl|rfl|rfl|rfl|rfl|rfl|rfl <;>
      first
        | rfl
        | exact absurd hhi (by decide)
        | exact absurd hlo (by decide)

theorem matchHour_eq (a1 a2 : Char) (r : List Char) (h1 : isDig a1 = true)
    (h2 : isDig a2 = true) (hhi : 10 * dv a1 + dv a2 ≤ 23) :
    matchHour (a1 :: a2 :: r) = some (10 * dv a1 + dv a2, r) := by
  rcases isDig_cases a1 h1 with rfl|rfl|rfl|rfl|rfl|rfl|rfl|rfl|rfl|rfl <;>
    rcases isDig_cases a2 h2 with rfl|rfl|rfl|rfl|rfl|rfl|rfl|rfl|rfl|rfl <;>
      first
        | rfl
        | exact absurd hhi (by decide)

theorem matchMinute_eq (a1 a2 : Char) (r : List Char) (h1 : isDig a1 = true)
    (h2 : isDig a2 = true) (hhi : 10 * dv a1 + dv a2 ≤ 59) :
    matchMinute (a1 :: a2 :: r) = some (10 * dv a1 + dv a2, r) := by
  rcases isDig_cases a1 h1 with rfl|rfl|rfl|rfl|rfl|rfl|rfl|rfl|rfl|rfl <;>
    rcases isDig_cases a2 h2 with rfl|rfl|rfl|rfl|rfl|rfl|rfl|rfl|rfl|rfl <;>
      first
        | rfl
        | exact absurd hhi (by decide)

theorem matchSecond_eq (a1 a2 : Char) (r : List Char) (h1 : isDig a1 = true)
    (h2 : isDig a2 = true) (hhi : 10 * dv a1 + dv a2 ≤ 59) :
    matchSecond (a1 :: a2 :: r) = some (10 * dv a1 + dv a2, r) := by
  rcases isDig_cases a1 h1 with rfl|rfl|rfl|rfl|rfl|rfl|rfl|rfl|rfl|rfl <;>
    rcases isDig_cases a2 h2 with rfl|rfl|rfl|rfl|rfl|rfl|rfl|rfl|rfl|rfl <;>
      first
        | rfl
        | exact absurd hhi (by decide)

theorem matchWs1_space (r : List Char) :
    matchWs1 (' ' :: r) = some (r.dropWhile isPyWs) := rfl

theorem daysInMonth_le (y m : Nat) : daysInMonth y m ≤ 31 := by
  unfold daysInMonth
  split_ifs <;> omega

/-! ### The exact layout of the spec is accepted by the embedded parser -/

theorem strptime_exact (l : List Char) (h : exactLayoutCore l = true) :
    strptime_datetime l = some (exactFieldsCore l) := by
  unfold exactLayoutCore at h
  split at h
  case h_2 => exact absurd h (by simp)
  case h_1 y1 y2 y3 y4 c1 m1 m2 c2 a1 a2 sp hc1 hc2 c3 n1 n2 c4 s1 s2 =>
    simp only [Bool.and_eq_true, beq_iff_eq] at h
    obtain ⟨⟨⟨⟨⟨⟨⟨⟨⟨⟨⟨⟨⟨⟨⟨⟨⟨⟨⟨hy1, hy2⟩, hy3⟩, hy4⟩, hcc1⟩, hm1⟩, hm2⟩, hcc2⟩,
      ha1⟩, ha2⟩, hsp⟩, hh1⟩, hh2⟩, hcc3⟩, hn1⟩, hn2⟩, hcc4⟩, hs1⟩, hs2⟩, hok⟩ := h
    subst hcc1 hcc2 hsp hcc3 hcc4
    have hok' := hok
    simp only [datetime_new_ok, Bool.and_eq_true, decide_eq_true_eq] at hok'
    obtain ⟨⟨⟨⟨⟨⟨⟨⟨hyl, hyh⟩, hmol⟩, hmoh⟩, hdal⟩, hdah⟩, hhh⟩, hmih⟩, hsh⟩ := hok'
    have hdah31 : 10 * dv a1 + dv a2 ≤ 31 :=
      le_trans hdah (daysInMonth_le _ _)
    have hdrop : List.dropWhile isPyWs
        (hc1 :: hc2 :: ':' :: n1 :: n2 :: ':' :: s1 :: s2 :: []) =
        hc1 :: hc2 :: ':' :: n1 :: n2 :: ':' :: s1 :: s2 :: [] := by
      rw [List.dropWhile_cons, isPyWs_digit hc1 hh1]
      simp
    have hf : strptime_fields (y1 :: y2 :: y3 :: y4 :: ':' :: m1 :: m2 :: ':' ::
        a1 :: a2 :: ' ' :: hc1 :: hc2 :: ':' :: n1 :: n2 :: ':' :: s1 :: s2 :: []) =
        some (1000 * dv y1 + 100 * dv y2 + 10 * dv y3 + dv y4,
          10 * dv m1 + dv m2, 10 * dv a1 + dv a2,
          10 * dv hc1 + dv hc2, 10 * dv n1 + dv n2, 10 * dv s1 + dv s2) := by
      unfold strptime_fields
      rw [matchYear_eq y1 y2 y3 y4 _ hy1 hy2 hy3 hy4]
      simp only [Option.some_bind]
      rw [matchColon_cons]
      simp only [Option.some_bind]
      rw [matchMonth_eq m1 m2 _ hm1 hm2 hmol hmoh]
      simp only [Option.some_bind]
      rw [matchColon_cons]
      simp only [Option.some_bind]
      rw [matchDay_eq a1 a2 _ ha1 ha2 hdal hdah31]
      simp only [Option.some_bind]
      rw [matchWs1_space, hdrop]
      simp only [Option.some_bind]
      rw [matchHour_eq hc1 hc2 _ hh1 hh2 hhh]
      simp only [Option.some_bind]
      rw [matchColon_cons]
      simp only [Option.some_bind]
      rw [matchMinute_eq n1 n2 _ hn1 hn2 hmih]
      simp only [Option.some_bind]
      rw [matchColon_cons]
      simp only [Option.some_bind]
      rw [matchSecond_eq s1 s2 _ hs1 hs2 hsh]
      simp only [Option.some_bind]
      simp
    unfold strptime_datetime
    rw [hf]
    simp [hok, exactFieldsCore]

theorem dv_le_9 (c : Char) (h : isDig c = true) : dv c ≤ 9 := by
  rcases isDig_cases c h with rfl|rfl|rfl|rfl|rfl|rfl|rfl|rfl|rfl|rfl <;> decide

theorem pyStripL_two_digits (a b : Char) (ha : isDig a = true) (hb : isDig b = true) :
    pyStripL [a, b] = [a, b] := by
  simp [pyStripL, List.dropWhile_cons, isPyWs_digit a ha, isPyWs_digit b hb]

theorem pythonIntL_two_digits (a b : Char) (ha : isDig a = true) (hb : isDig b = true) :
    pythonIntL [a, b] = some ((10 * dv a + dv b : Nat) : Int) := by
  unfold pythonIntL
  rw [pyStripL_two_digits a b ha hb]
  have h1 : digitsTailU [b] (dv a) = some (dv a * 10 + dv b) := by
    simp [digitsTailU, isDig_ne_underscore b hb, hb]
  have h2 : digitsU [a, b] = some (dv a * 10 + dv b) := by
    simp [digitsU, ha, h1]
  simp [isDig_ne_plus a ha, isDig_ne_minus a ha, h2]
  ring

theorem splitColon_offset_tail (h1 h2 m1 m2 : Char) (hh1 : isDig h1 = true)
    (hh2 : isDig h2 = true) (hm1 : isDig m1 = true) (hm2 : isDig m2 = true) :
    splitColon [h1, h2, ':', m1, m2] = [[h1, h2], [m1, m2]] := by
  simp [splitColon, isDig_ne_colon h1 hh1, isDig_ne_colon h2 hh2,
    isDig_ne_colon m1 hm1, isDig_ne_colon m2 hm2]

/-- Evaluation of the offset-handling code on a stripped string of the
shape `<sign char>HH:MM` with two-digit fields: the result is the signed
offset when it lies in the open interval allowed by `timezone`, and the
`ValueError` path otherwise. -/
theorem parse_offset_shape (ov : List Char) (c h1 h2 m1 m2 : Char)
    (hst : pyStripL ov = [c, h1, h2, ':', m1, m2])
    (hh1 : isDig h1 = true) (hh2 : isDig h2 = true)
    (hm1 : isDig m1 = true) (hm2 : isDig m2 = true) :
    parse_offset_minutes ov =
      if (10 * dv h1 + dv h2) * 60 + (10 * dv m1 + dv m2) < 1440 then
        .ok ((((10 * dv h1 + dv h2) * 60 + (10 * dv m1 + dv m2) : Nat) : Int) *
          (if c = '+' then 1 else -1))
      else .error .valueErr := by
  have hH : dv h1 ≤ 9 := dv_le_9 h1 hh1
  have hH2 : dv h2 ≤ 9 := dv_le_9 h2 hh2
  have hM : dv m1 ≤ 9 := dv_le_9 m1 hm1
  have hM2 : dv m2 ≤ 9 := dv_le_9 m2 hm2
  unfold parse_offset_minutes
  rw [hst]
  simp only [startsWithPlus, beq_iff_eq, List.drop,
    splitColon_offset_tail h1 h2 m1 m2 hh1 hh2 hm1 hm2,
    pythonIntL_two_digits h1 h2 hh1 hh2, pythonIntL_two_digits m1 m2 hm1 hm2]
  have hNcast : (↑(10 * dv h1 + dv h2) * 60 + ↑(10 * dv m1 + dv m2) : Int) =
      (((10 * dv h1 + dv h2) * 60 + (10 * dv m1 + dv m2) : Nat) : Int) := by
    push_cast
    ring
  rw [hNcast]
  by_cases hc : c = '+'
  · simp only [if_pos hc, mul_one]
    simp only [timedeltaMinutesOk, Bool.and_eq_true, decide_eq_true_eq]
    split_ifs <;> first | rfl | omega
  · simp only [if_neg hc, mul_neg_one]
    simp only [timedeltaMinutesOk, Bool.and_eq_true, decide_eq_true_eq]
    split_ifs <;> first | rfl | omega

/-! ### Resolver-level evaluation lemmas -/

theorem get_eq_resolve (fs : String → Option (List Nat))
    (decode : List Nat → Except PyErr ExifTags) (file : PhotoSource) (tags : ExifTags)
    (hex : extract_exif_tags fs decode file = .ok tags) (strict : Bool) :
    get_photo_capture_time fs decode file strict = capture_time_from_tags tags strict := by
  unfold get_photo_capture_time
  rw [hex]

theorem resolve_missing (tags : ExifTags) (strict : Bool)
    (hdt : List.lookup "EXIF DateTimeOriginal" tags = none) :
    capture_time_from_tags tags strict =
      if strict then
        .error (.valueError "The photo does not contain capture date and time information")
      else .ok none := by
  unfold capture_time_from_tags
  simp only [hdt]

theorem resolve_found_naive (tags : ExifTags) (strict : Bool) (v : String)
    (hdt : List.lookup "EXIF DateTimeOriginal" tags = some v)
    (y mo da h mi s : Nat)
    (hp : strptime_datetime v.data = some (y, mo, da, h, mi, s))
    (hoff : List.lookup "EXIF OffsetTimeOriginal" tags = none) :
    capture_time_from_tags tags strict = .ok (some (PyDatetime.mk y mo da h mi s none)) := by
  unfold capture_time_from_tags
  simp only [hdt, hoff, hp]

theorem resolve_found_offset (tags : ExifTags) (strict : Bool) (v ov : String)
    (hdt : List.lookup "EXIF DateTimeOriginal" tags = some v)
    (y mo da h mi s : Nat)
    (hp : strptime_datetime v.data = some (y, mo, da, h, mi, s))
    (hoff : List.lookup "EXIF OffsetTimeOriginal" tags = some ov)
    (tz : Int) (hpo : parse_offset_minutes ov.data = .ok tz) :
    capture_time_from_tags tags strict =
      .ok (some (PyDatetime.mk y mo da h mi s (some tz))) := by
  unfold capture_time_from_tags
  simp only [hdt, hoff, hp, hpo]

theorem resolve_malformed_date (tags : ExifTags) (strict : Bool) (v : String)
    (hdt : List.lookup "EXIF DateTimeOriginal" tags = some v)
    (hp : strptime_datetime v.data = none) :
    capture_time_from_tags tags strict =
      .error (.valueError "Invalid date format in Exif metadata") := by
  unfold capture_time_from_tags
  simp only [hdt, hp]

theorem resolve_offset_valueErr (tags : ExifTags) (strict : Bool) (v ov : String)
    (hdt : List.lookup "EXIF DateTimeOriginal" tags = some v)
    (y mo da h mi s : Nat)
    (hp : strptime_datetime v.data = some (y, mo, da, h, mi, s))
    (hoff : List.lookup "EXIF OffsetTimeOriginal" tags = some ov)
    (hpo : parse_offset_minutes ov.data = .error .valueErr) :
    capture_time_from_tags tags strict =
      .error (.valueError "Invalid date format in Exif metadata") := by
  unfold capture_time_from_tags
  simp only [hdt, hoff, hp, hpo]

/-! ### Claims -/

/-- C1: for every source whose tag mapping contains
`"EXIF DateTimeOriginal"` with a value in the exact zero-padded layout
`YYYY:MM:DD HH:MM:SS` and no `"EXIF OffsetTimeOriginal"` tag,
`get_photo_capture_time` returns a naive timestamp (no timezone attached)
whose year, month, day, hour, minute and second equal the parsed fields. -/
theorem C1_exact_date_no_offset_naive (fs : String → Option (List Nat))
    (decode : List Nat → Except PyErr ExifTags) (file : PhotoSource)
    (tags : ExifTags) (strict : Bool) (v : String)
    (hex : extract_exif_tags fs decode file = .ok tags)
    (hdt : List.lookup "EXIF DateTimeOriginal" tags = some v)
    (hlay : exactExifLayout v = true)
    (hoff : List.lookup "EXIF OffsetTimeOriginal" tags = none) :
    get_photo_capture_time fs decode file strict =
      .ok (some (PyDatetime.mk (exactExifFields v).1 (exactExifFields v).2.1
        (exactExifFields v).2.2.1 (exactExifFields v).2.2.2.1
        (exactExifFields v).2.2.2.2.1 (exactExifFields v).2.2.2.2.2 none)) := by
  rw [get_eq_resolve fs decode file tags hex strict]
  exact resolve_found_naive tags strict v hdt _ _ _ _ _ _
    (strptime_exact v.data hlay) hoff

/-- C1 witness: `"2023:07:04 15:30:00"` yields the naive timestamp
2023-07-04T15:30:00. -/
theorem C1_witness :
    get_photo_capture_time (fun _ => none)
      (fun _ => Except.ok [("EXIF DateTimeOriginal", "2023:07:04 15:30:00")])
      (PhotoSource.buffer [] 0) true =
      Except.ok (some (PyDatetime.mk 2023 7 4 15 30 0 none)) :=
  C1_exact_date_no_offset_naive (fun _ => none)
    (fun _ => Except.ok [("EXIF DateTimeOriginal", "2023:07:04 15:30:00")])
    (PhotoSource.buffer [] 0) [("EXIF DateTimeOriginal", "2023:07:04 15:30:00")]
    true "2023:07:04 15:30:00" rfl rfl rfl rfl

/-- C2: with a well-formed date tag and an offset tag whose stripped string
form is a sign character followed by two-digit `HH:MM` denoting less than
24 hours, the returned timestamp is timezone-aware and carries exactly the
offset `(hours * 60 + minutes) * sign`, where the sign is `+1` for a
leading `'+'` and `-1` for any other leading character. -/
theorem C2_offset_aware (fs : String → Option (List Nat))
    (decode : List Nat → Except PyErr ExifTags) (file : PhotoSource)
    (tags : ExifTags) (strict : Bool) (v ov : String) (c h1 h2 m1 m2 : Char)
    (hex : extract_exif_tags fs decode file = .ok tags)
    (hdt : List.lookup "EXIF DateTimeOriginal" tags = some v)
    (hlay : exactExifLayout v = true)
    (hoff : List.lookup "EXIF OffsetTimeOriginal" tags = some ov)
    (hst : pyStripL ov.data = [c, h1, h2, ':', m1, m2])
    (hh1 : isDig h1 = true) (hh2 : isDig h2 = true)
    (hm1 : isDig m1 = true) (hm2 : isDig m2 = true)
    (hbound : (10 * dv h1 + dv h2) * 60 + (10 * dv m1 + dv m2) < 1440) :
    get_photo_capture_time fs decode file strict =
      .ok (some (PyDatetime.mk (exactExifFields v).1 (exactExifFields v).2.1
        (exactExifFields v).2.2.1 (exactExifFields v).2.2.2.1
        (exactExifFields v).2.2.2.2.1 (exactExifFields v).2.2.2.2.2
        (some ((((10 * dv h1 + dv h2) * 60 + (10 * dv m1 + dv m2) : Nat) : Int) *
          (if c = '+' then 1 else -1))))) := by
  have hpo : parse_offset_minutes ov.data =
      .ok ((((10 * dv h1 + dv h2) * 60 + (10 * dv m1 + dv m2) : Nat) : Int) *
        (if c = '+' then 1 else -1)) := by
    rw [parse_offset_shape ov.data c h1 h2 m1 m2 hst hh1 hh2 hm1 hm2, if_pos hbound]
  rw [get_eq_resolve fs decode file tags hex strict]
  exact resolve_found_offset tags strict v ov hdt _ _ _ _ _ _
    (strptime_exact v.data hlay) hoff _ hpo

/-- C2 witness: `"+02:00"` yields UTC+02:00 (offset 120 minutes) and
`"-05:30"` yields an offset of exactly minus 5 hours 30 minutes
(-330 minutes). -/
theorem C2_witness :
    get_photo_capture_time (fun _ => none)
      (fun _ => Except.ok [("EXIF DateTimeOriginal", "2023:07:04 15:30:00"),
        ("EXIF OffsetTimeOriginal", "+02:00")])
      (PhotoSource.buffer [] 0) true =
      Except.ok (some (PyDatetime.mk 2023 7 4 15 30 0 (some 120))) ∧
    get_photo_capture_time (fun _ => none)
      (fun _ => Except.ok [("EXIF DateTimeOriginal", "2023:07:04 15:30:00"),
        ("EXIF OffsetTimeOriginal", "-05:30")])
      (PhotoSource.buffer [] 0) true =
      Except.ok (some (PyDatetime.mk 2023 7 4 15 30 0 (some (-330)))) :=
  ⟨C2_offset_aware (fun _ => none)
      (fun _ => Except.ok [("EXIF DateTimeOriginal", "2023:07:04 15:30:00"),
        ("EXIF OffsetTimeOriginal", "+02:00")])
      (PhotoSource.buffer [] 0)
      [("EXIF DateTimeOriginal", "2023:07:04 15:30:00"),
        ("EXIF OffsetTimeOriginal", "+02:00")] true
      "2023:07:04 15:30:00" "+02:00" '+' '0' '2' '0' '0'
      rfl rfl rfl rfl rfl rfl rfl rfl rfl (by decide),
    C2_offset_aware (fun _ => none)
      (fun _ => Except.ok [("EXIF DateTimeOriginal", "2023:07:04 15:30:00"),
        ("EXIF OffsetTimeOriginal", "-05:30")])
      (PhotoSource.buffer [] 0)
      [("EXIF DateTimeOriginal", "2023:07:04 15:30:00"),
        ("EXIF OffsetTimeOriginal", "-05:30")] true
      "2023:07:04 15:30:00" "-05:30" '-' '0' '5' '3' '0'
      rfl rfl rfl rfl rfl rfl rfl rfl rfl (by decide)⟩

/-- C3 counterexample: with no `"EXIF DateTimeOriginal"` tag and
`strict = true` the call does fail, but the message of the error is
`"The photo does not contain capture date and time information"` (capital
`T`), not the claimed `"the photo does not contain capture date and time
information"`. -/
theorem C3_counterexample :
    get_photo_capture_time (fun _ => none) (fun _ => Except.ok [])
      (PhotoSource.buffer [] 0) true =
      Except.error (PyErr.valueError
        "The photo does not contain capture date and time information") ∧
    "The photo does not contain capture date and time information" ≠
      "the photo does not contain capture date and time information" :=
  ⟨rfl, by decide⟩

/-- C3 (amended): for every source whose tag mapping lacks the
`"EXIF DateTimeOriginal"` tag, `get_photo_capture_time` with
`strict = true` fails with the missing-data `ValueError` carrying the
message `"The photo does not contain capture date and time information"`,
and returns no timestamp. -/
theorem C3_missing_strict_error (fs : String → Option (List Nat))
    (decode : List Nat → Except PyErr ExifTags) (file : PhotoSource)
    (tags : ExifTags)
    (hex : extract_exif_tags fs decode file = .ok tags)
    (hdt : List.lookup "EXIF DateTimeOriginal" tags = none) :
    get_photo_capture_time fs decode file true =
      .error (.valueError
        "The photo does not contain capture date and time information") := by
  rw [get_eq_resolve fs decode file tags hex true, resolve_missing tags true hdt]
  rfl

/-- C3 witness: a tag mapping with unrelated entries but no date tag. -/
theorem C3_witness :
    get_photo_capture_time (fun _ => none)
      (fun _ => Except.ok [("Image Model", "X100")])
      (PhotoSource.buffer [0, 1] 2) true =
      Except.error (PyErr.valueError
        "The photo does not contain capture date and time information") :=
  C3_missing_strict_error (fun _ => none)
    (fun _ => Except.ok [("Image Model", "X100")])
    (PhotoSource.buffer [0, 1] 2) [("Image Model", "X100")] rfl rfl

/-- C4: for every source whose tag mapping lacks the
`"EXIF DateTimeOriginal"` tag, `get_photo_capture_time` with
`strict = false` returns `none` ("absent") and raises no error. -/
theorem C4_missing_nonstrict_none (fs : String → Option (List Nat))
    (decode : List Nat → Except PyErr ExifTags) (file : PhotoSource)
    (tags : ExifTags)
    (hex : extract_exif_tags fs decode file = .ok tags)
    (hdt : List.lookup "EXIF DateTimeOriginal" tags = none) :
    get_photo_capture_time fs decode file false = .ok none := by
  rw [get_eq_resolve fs decode file tags hex false, resolve_missing tags false hdt]
  rfl

/-- C4 witness. -/
theorem C4_witness :
    get_photo_capture_time (fun _ => none)
      (fun _ => Except.ok [("Image Model", "X100")])
      (PhotoSource.buffer [] 0) false = Except.ok none :=
  C4_missing_nonstrict_none (fun _ => none)
    (fun _ => Except.ok [("Image Model", "X100")])
    (PhotoSource.buffer [] 0) [("Image Model", "X100")] rfl rfl

/-- C5 counterexample: the date value `"2023:7:04 15:30:00"` deviates from
the exact zero-padded layout `YYYY:MM:DD HH:MM:SS` (single-digit month),
yet `get_photo_capture_time` does not fail with the malformed-data error:
the lenient `strptime` accepts non-zero-padded fields and the call returns
the timestamp 2023-07-04T15:30:00. -/
theorem C5_counterexample :
    exactExifLayout "2023:7:04 15:30:00" = false ∧
    get_photo_capture_time (fun _ => none)
      (fun _ => Except.ok [("EXIF DateTimeOriginal", "2023:7:04 15:30:00")])
      (PhotoSource.buffer [] 0) true =
      Except.ok (some (PyDatetime.mk 2023 7 4 15 30 0 none)) :=
  ⟨rfl, rfl⟩

/-- C5 (amended): a present, non-empty `"EXIF DateTimeOriginal"` value
that the (lenient) `strptime` parser rejects, or — when the date parses —
a present, non-empty `"EXIF OffsetTimeOriginal"` value whose processing
raises `ValueError` (tail not splitting into exactly two `int`-parseable
fields, or offset out of the `timezone` range), makes
`get_photo_capture_time` fail with the same `ValueError`
`"Invalid date format in Exif metadata"` for both tags, regardless of
`strict`, and no partial result is returned. -/
theorem C5_malformed_error (fs : String → Option (List Nat))
    (decode : List Nat → Except PyErr ExifTags) (file : PhotoSource)
    (tags : ExifTags) (strict : Bool) (v : String)
    (hex : extract_exif_tags fs decode file = .ok tags)
    (hdt : List.lookup "EXIF DateTimeOriginal" tags = some v)
    (hne : v ≠ "") :
    (strptime_datetime v.data = none →
      get_photo_capture_time fs decode file strict =
        .error (.valueError "Invalid date format in Exif metadata")) ∧
    (∀ (y mo da h mi s : Nat) (ov : String),
      strptime_datetime v.data = some (y, mo, da, h, mi, s) →
      List.lookup "EXIF OffsetTimeOriginal" tags = some ov → ov ≠ "" →
      parse_offset_minutes ov.data = .error .valueErr →
      get_photo_capture_time fs decode file strict =
        .error (.valueError "Invalid date format in Exif metadata")) := by
  constructor
  · intro hp
    rw [get_eq_resolve fs decode file tags hex strict]
    exact resolve_malformed_date tags strict v hdt hp
  · intro y mo da h mi s ov hp hoff hone hpo
    rw [get_eq_resolve fs decode file tags hex strict]
    exact resolve_offset_valueErr tags strict v ov hdt y mo da h mi s hp hoff hpo

/-- C5 witness: a wrong date separator (`"2023-07-04 15:30:00"`) fails
with the malformed-data error under both `strict` values, and a malformed
offset (`"+02"`) fails with the same error. -/
theorem C5_witness :
    get_photo_capture_time (fun _ => none)
      (fun _ => Except.ok [("EXIF DateTimeOriginal", "2023-07-04 15:30:00")])
      (PhotoSource.buffer [] 0) true =
      Except.error (PyErr.valueError "Invalid date format in Exif metadata") ∧
    get_photo_capture_time (fun _ => none)
      (fun _ => Except.ok [("EXIF DateTimeOriginal", "2023-07-04 15:30:00")])
      (PhotoSource.buffer [] 0) false =
      Except.error (PyErr.valueError "Invalid date format in Exif metadata") ∧
    get_photo_capture_time (fun _ => none)
      (fun _ => Except.ok [("EXIF DateTimeOriginal", "2023:07:04 15:30:00"),
        ("EXIF OffsetTimeOriginal", "+02")])
      (PhotoSource.buffer [] 0) true =
      Except.error (PyErr.valueError "Invalid date format in Exif metadata") :=
  ⟨(C5_malformed_error (fun _ => none)
      (fun _ => Except.ok [("EXIF DateTimeOriginal", "2023-07-04 15:30:00")])
      (PhotoSource.buffer [] 0) [("EXIF DateTimeOriginal", "2023-07-04 15:30:00")]
      true "2023-07-04 15:30:00" rfl rfl (by decide)).1 rfl,
    (C5_malformed_error (fun _ => none)
      (fun _ => Except.ok [("EXIF DateTimeOriginal", "2023-07-04 15:30:00")])
      (PhotoSource.buffer [] 0) [("EXIF DateTimeOriginal", "2023-07-04 15:30:00")]
      false "2023-07-04 15:30:00" rfl rfl (by decide)).1 rfl,
    (C5_malformed_error (fun _ => none)
      (fun _ => Except.ok [("EXIF DateTimeOriginal", "2023:07:04 15:30:00"),
        ("EXIF OffsetTimeOriginal", "+02")])
      (PhotoSource.buffer [] 0)
      [("EXIF DateTimeOriginal", "2023:07:04 15:30:00"),
        ("EXIF OffsetTimeOriginal", "+02")]
      true "2023:07:04 15:30:00" rfl rfl (by decide)).2
      2023 7 4 15 30 0 "+02" rfl rfl (by decide) rfl⟩

/-- C6: for a source value that is neither a path nor a byte buffer,
`get_photo_capture_time` fails with the invalid-type `ValueError` whose
message names the unexpected type, and the failure happens before any tag
lookup: the result does not depend on the decoder at all.  The third
conjunct shows the concrete message for a raw integer (`int`). -/
theorem C6_invalid_type_error (fs : String → Option (List Nat))
    (decode decode' : List Nat → Except PyErr ExifTags) (strict : Bool)
    (tyName : String) :
    get_photo_capture_time fs decode (PhotoSource.other tyName) strict =
      .error (.valueError (invalidTypeMsg tyName)) ∧
    get_photo_capture_time fs decode (PhotoSource.other tyName) strict =
      get_photo_capture_time fs decode' (PhotoSource.other tyName) strict ∧
    invalidTypeMsg "int" =
      "Invalid file type: expected a file-like object (`BytesIO`) or a file path (`Path`), but received int." :=
  ⟨rfl, rfl, rfl⟩

/-- C7: for a byte-buffer source the result of `get_photo_capture_time`
does not depend on the buffer's initial read-cursor position (including a
cursor at or past end-of-stream), because the extractor calls
`file.seek(0)` before decoding. -/
theorem C7_cursor_independent (fs : String → Option (List Nat))
    (decode : List Nat → Except PyErr ExifTags) (content : List Nat)
    (p1 p2 : Nat) (strict : Bool) :
    get_photo_capture_time fs decode (PhotoSource.buffer content p1) strict =
      get_photo_capture_time fs decode (PhotoSource.buffer content p2) strict := rfl

/-- Relation between `get_photo_capture_time` and its event-instrumented
variant. -/
theorem get_eq_ev_snd (fs : String → Option (List Nat))
    (decode : List Nat → Except PyErr ExifTags) (file : PhotoSource) (strict : Bool) :
    get_photo_capture_time fs decode file strict =
      (get_photo_capture_time_ev fs decode file strict).2 := rfl

/-- C8: for a path source that can be opened, the file handle is opened
and then closed exactly once during `get_photo_capture_time`, whatever the
decoder does (success or any exception) and whatever the resolver then
returns: the event trace is `[open, close]` on every exit path. -/
theorem C8_file_handle_closed (fs : String → Option (List Nat))
    (decode : List Nat → Except PyErr ExifTags) (p : String) (strict : Bool)
    (content : List Nat) (h : fs p = some content) :
    (get_photo_capture_time_ev fs decode (PhotoSource.path p) strict).1 =
      [FileEvent.openF p, FileEvent.closeF p] := by
  simp only [get_photo_capture_time_ev, extract_exif_tags_ev, h]

/-- C8 witness: the handle is closed even when the decoder raises. -/
theorem C8_witness :
    (get_photo_capture_time_ev (fun _ => some [255, 216])
      (fun _ => Except.error (PyErr.decodeError "not a JPEG"))
      (PhotoSource.path "photo.jpg") true).1 =
      [FileEvent.openF "photo.jpg", FileEvent.closeF "photo.jpg"] :=
  C8_file_handle_closed (fun _ => some [255, 216])
    (fun _ => Except.error (PyErr.decodeError "not a JPEG"))
    "photo.jpg" true [255, 216] rfl

/-- C9 counterexample: a tag key bound to an empty (falsy) string form is
NOT treated as missing.  `exif_tags.get` returns an always-truthy `IfdTag`
for a present key, so an empty `"EXIF DateTimeOriginal"` value reaches
`strptime("")`, which raises: the call fails with the malformed-data
`ValueError` `"Invalid date format in Exif metadata"` under both `strict`
values — not the claimed missing-data error, and not `None`.  Likewise an
empty `"EXIF OffsetTimeOriginal"` next to a well-formed date fails with
the same error instead of yielding a naive timestamp.  The last conjunct
records that this error differs from the missing-data error the claim
predicts. -/
theorem C9_counterexample :
    get_photo_capture_time (fun _ => none)
      (fun _ => Except.ok [("EXIF DateTimeOriginal", "")])
      (PhotoSource.buffer [] 0) true =
      Except.error (PyErr.valueError "Invalid date format in Exif metadata") ∧
    get_photo_capture_time (fun _ => none)
      (fun _ => Except.ok [("EXIF DateTimeOriginal", "")])
      (PhotoSource.buffer [] 0) false =
      Except.error (PyErr.valueError "Invalid date format in Exif metadata") ∧
    get_photo_capture_time (fun _ => none)
      (fun _ => Except.ok [("EXIF DateTimeOriginal", "2023:07:04 15:30:00"),
        ("EXIF OffsetTimeOriginal", "")])
      (PhotoSource.buffer [] 0) true =
      Except.error (PyErr.valueError "Invalid date format in Exif metadata") ∧
    PyErr.valueError "Invalid date format in Exif metadata" ≠
      PyErr.valueError
        "The photo does not contain capture date and time information" :=
  ⟨rfl, rfl, rfl, by decide⟩

/-- C9 (amended): a tag key bound to an empty string-form value is not
treated as missing; presence of the key alone selects the parse branch.
An empty `"EXIF DateTimeOriginal"` fails with the `ValueError`
`"Invalid date format in Exif metadata"` regardless of `strict`, and an
empty `"EXIF OffsetTimeOriginal"` next to a well-formed date fails with
the same error rather than yielding a naive timestamp. -/
theorem C9_empty_value_parses (fs : String → Option (List Nat))
    (decode : List Nat → Except PyErr ExifTags) (file : PhotoSource)
    (tags : ExifTags) (strict : Bool)
    (hex : extract_exif_tags fs decode file = .ok tags) :
    (List.lookup "EXIF DateTimeOriginal" tags = some "" →
      get_photo_capture_time fs decode file strict =
        .error (.valueError "Invalid date format in Exif metadata")) ∧
    (∀ (v : String) (y mo da h mi s : Nat),
      List.lookup "EXIF DateTimeOriginal" tags = some v →
      strptime_datetime v.data = some (y, mo, da, h, mi, s) →
      List.lookup "EXIF OffsetTimeOriginal" tags = some "" →
      get_photo_capture_time fs decode file strict =
        .error (.valueError "Invalid date format in Exif metadata")) := by
  constructor
  · intro hdt
    rw [get_eq_resolve fs decode file tags hex strict]
    exact resolve_malformed_date tags strict "" hdt rfl
  · intro v y mo da h mi s hdt hp hoff
    rw [get_eq_resolve fs decode file tags hex strict]
    exact resolve_offset_valueErr tags strict v "" hdt y mo da h mi s hp hoff rfl

/-- C9 witness: concrete tag mappings with empty-string values, distinct
from the counterexample's inputs. -/
theorem C9_witness :
    get_photo_capture_time (fun _ => none)
      (fun _ => Except.ok [("Image Model", "X100"), ("EXIF DateTimeOriginal", "")])
      (PhotoSource.buffer [0] 1) false =
      Except.error (PyErr.valueError "Invalid date format in Exif metadata") ∧
    get_photo_capture_time (fun _ => none)
      (fun _ => Except.ok [("EXIF DateTimeOriginal", "2024:02:29 00:00:00"),
        ("EXIF OffsetTimeOriginal", "")])
      (PhotoSource.buffer [] 0) true =
      Except.error (PyErr.valueError "Invalid date format in Exif metadata") :=
  ⟨(C9_empty_value_parses (fun _ => none)
      (fun _ => Except.ok [("Image Model", "X100"), ("EXIF DateTimeOriginal", "")])
      (PhotoSource.buffer [0] 1)
      [("Image Model", "X100"), ("EXIF DateTimeOriginal", "")] false rfl).1 rfl,
    (C9_empty_value_parses (fun _ => none)
      (fun _ => Except.ok [("EXIF DateTimeOriginal", "2024:02:29 00:00:00"),
        ("EXIF OffsetTimeOriginal", "")])
      (PhotoSource.buffer [] 0)
      [("EXIF DateTimeOriginal", "2024:02:29 00:00:00"),
        ("EXIF OffsetTimeOriginal", "")] true rfl).2
      "2024:02:29 00:00:00" 2024 2 29 0 0 0 rfl rfl rfl⟩

/-- C10: a well-formed date together with an offset in the
sign-plus-`HH:MM` layout whose magnitude is at least 24 hours (at least
1440 minutes) makes `get_photo_capture_time` fail with the same
`ValueError` `"Invalid date format in Exif metadata"`: the `timezone`
constructor rejects the offset inside the guarded region. -/
theorem C10_offset_out_of_range (fs : String → Option (List Nat))
    (decode : List Nat → Except PyErr ExifTags) (file : PhotoSource)
    (tags : ExifTags) (strict : Bool) (v ov : String) (c h1 h2 m1 m2 : Char)
    (hex : extract_exif_tags fs decode file = .ok tags)
    (hdt : List.lookup "EXIF DateTimeOriginal" tags = some v)
    (hlay : exactExifLayout v = true)
    (hoff : List.lookup "EXIF OffsetTimeOriginal" tags = some ov)
    (hst : pyStripL ov.data = [c, h1, h2, ':', m1, m2])
    (hh1 : isDig h1 = true) (hh2 : isDig h2 = true)
    (hm1 : isDig m1 = true) (hm2 : isDig m2 = true)
    (hbound : 1440 ≤ (10 * dv h1 + dv h2) * 60 + (10 * dv m1 + dv m2)) :
    get_photo_capture_time fs decode file strict =
      .error (.valueError "Invalid date format in Exif metadata") := by
  have hpo : parse_offset_minutes ov.data = .error .valueErr := by
    rw [parse_offset_shape ov.data c h1 h2 m1 m2 hst hh1 hh2 hm1 hm2,
      if_neg (by omega)]
  rw [get_eq_resolve fs decode file tags hex strict]
  exact resolve_offset_valueErr tags strict v ov hdt _ _ _ _ _ _
    (strptime_exact v.data hlay) hoff hpo

/-- C10 witness: `"+24:00"` is rejected with the malformed-data error. -/
theorem C10_witness :
    get_photo_capture_time (fun _ => none)
      (fun _ => Except.ok [("EXIF DateTimeOriginal", "2023:07:04 15:30:00"),
        ("EXIF OffsetTimeOriginal", "+24:00")])
      (PhotoSource.buffer [] 0) true =
      Except.error (PyErr.valueError "Invalid date format in Exif metadata") :=
  C10_offset_out_of_range (fun _ => none)
    (fun _ => Except.ok [("EXIF DateTimeOriginal", "2023:07:04 15:30:00"),
      ("EXIF OffsetTimeOriginal", "+24:00")])
    (PhotoSource.buffer [] 0)
    [("EXIF DateTimeOriginal", "2023:07:04 15:30:00"),
      ("EXIF OffsetTimeOriginal", "+24:00")] true
    "2023:07:04 15:30:00" "+24:00" '+' '2' '4' '0' '0'
    rfl rfl rfl rfl rfl rfl rfl rfl rfl (by decide)
